import Mathlib

/-!
Shallow embedding of the `pyspinsrc` GStreamer source element
(`src/gst/python/pyspinsrc.py`) together with theorems checking the
design-document statements about it.

Modelling conventions:
* Python exceptions become an explicit `PyErr` value threaded through
  `Except`; the distinction between exception classes matters because the
  element-level helpers catch only `ValueError` and `NotImplementedError`.
* GenICam camera nodes become a closed tagged variant `Node`; integer node
  values are `Int`, float node values are `ℚ` (the clamping logic compares
  and copies values, it performs no rounding arithmetic).
* The vendor SDK device handle is modelled by `Device`, whose boolean
  fields script whether the corresponding SDK call succeeds or raises.
* The stream of captures a device delivers is modelled by a finite script
  `List Capture`; an empty script stands for a `GetNextImage` timeout.
-/

/-- Python exception kinds that the source distinguishes by its `except`
clauses.  `valueError` and `notImplementedError` are the two classes the
element-level helpers catch; the remaining kinds propagate through them. -/
inductive PyErr
  | valueError (msg : String)
  | notImplementedError (msg : String)
  | typeError (msg : String)
  | attributeError (msg : String)
  | spinnakerError (msg : String)
  | zeroDivisionError (msg : String)
  deriving DecidableEq, Repr

/-- Whether an exception is caught by `except (ValueError, NotImplementedError)`,
the clause used by every `PySpinSrc` camera-node helper. -/
def caught_by_helpers : PyErr → Bool
  | .valueError _ => true
  | .notImplementedError _ => true
  | _ => false

/-- Dynamically typed Python values exchanged with camera nodes and
GObject properties. -/
inductive PyVal
  | pyInt (i : Int)
  | pyFloat (q : ℚ)
  | pyBool (b : Bool)
  | pyStr (s : String)
  | pyNone
  deriving DecidableEq, Repr

/-- Python `str()` as used by `_set_enum_node_val` (`str(value)`). -/
def pyToString : PyVal → String
  | .pyStr s => s
  | .pyNone => "None"
  | .pyBool b => if b then "True" else "False"
  | .pyInt i => toString i
  | .pyFloat q => toString q

/-- A GenICam integer node: bounded, with availability/access flags. -/
structure IntNode where
  displayName : String
  available : Bool
  readable : Bool
  writable : Bool
  minVal : Int
  maxVal : Int
  value : Int
  deriving DecidableEq, Repr

/-- A GenICam float node; values modelled as rationals. -/
structure FloatNode where
  displayName : String
  available : Bool
  readable : Bool
  writable : Bool
  minVal : ℚ
  maxVal : ℚ
  value : ℚ
  deriving DecidableEq, Repr

/-- A GenICam boolean node. -/
structure BoolNode where
  displayName : String
  available : Bool
  readable : Bool
  writable : Bool
  value : Bool
  deriving DecidableEq, Repr

/-- One entry of an enumeration node, identified by its symbolic name. -/
structure EnumEntry where
  symbolic : String
  entryAvailable : Bool
  entryReadable : Bool
  deriving DecidableEq, Repr

/-- A GenICam enumeration node; `current` is the symbolic name of the
currently selected entry. -/
structure EnumNode where
  displayName : String
  available : Bool
  readable : Bool
  writable : Bool
  entries : List EnumEntry
  current : String
  deriving DecidableEq, Repr

/-- A GenICam command node. -/
structure CommandNode where
  displayName : String
  available : Bool
  writable : Bool
  deriving DecidableEq, Repr

/-- Closed tagged variant for the run-time node-interface dispatch done via
`GetPrincipalInterfaceType` in the source.  `stringN` and `unknownN` carry
their availability flag only. -/
inductive Node
  | intN (n : IntNode)
  | floatN (n : FloatNode)
  | boolN (n : BoolNode)
  | enumN (n : EnumNode)
  | stringN (available : Bool)
  | commandN (n : CommandNode)
  | unknownN (available : Bool)
  deriving DecidableEq, Repr

/-- `PySpin.IsAvailable` on a node of any interface type. -/
def nodeIsAvailable : Node → Bool
  | .intN n => n.available
  | .floatN n => n.available
  | .boolN n => n.available
  | .enumN n => n.available
  | .stringN a => a
  | .commandN n => n.available
  | .unknownN a => a

/-- `ImageAcquirer._get_int_node_val`. -/
def _get_int_node_val (int_node : IntNode) : Except PyErr Int :=
  if !int_node.available || !int_node.readable then
    .error (.valueError s!"Integer node {int_node.displayName} is not readable")
  else
    .ok int_node.value

/-- `ImageAcquirer._get_int_node_range`.  The source reports a failed
readability check on an integer range with the message text "is not
writable"; the message is kept as written. -/
def _get_int_node_range (int_node : IntNode) : Except PyErr (Int × Int) :=
  if !int_node.available || !int_node.readable then
    .error (.valueError s!"Integer node {int_node.displayName} is not writable")
  else
    .ok (int_node.minVal, int_node.maxVal)

/-- `ImageAcquirer._set_int_node_val`: check availability and writability,
then clamp the requested value into `[GetMin, GetMax]` and store it.
A non-numeric argument would make Python `max` raise `TypeError` after the
access checks, which the catch-all branch models. -/
def _set_int_node_val (int_node : IntNode) (value : PyVal) : Except PyErr IntNode :=
  if !int_node.available || !int_node.writable then
    .error (.valueError s!"Integer node {int_node.displayName} is not writable")
  else
    match value with
    | .pyInt v =>
      let value1 := max v int_node.minVal
      let value2 := min value1 int_node.maxVal
      .ok { int_node with value := value2 }
    | _ => .error (.typeError "unsupported operand type for max")

/-- `ImageAcquirer._get_float_node_val`. -/
def _get_float_node_val (float_node : FloatNode) : Except PyErr ℚ :=
  if !float_node.available || !float_node.readable then
    .error (.valueError s!"Float node {float_node.displayName} is not readable")
  else
    .ok float_node.value

/-- `ImageAcquirer._get_float_node_range`. -/
def _get_float_node_range (float_node : FloatNode) : Except PyErr (ℚ × ℚ) :=
  if !float_node.available || !float_node.readable then
    .error (.valueError s!"Float node {float_node.displayName} is not readable")
  else
    .ok (float_node.minVal, float_node.maxVal)

/-- `ImageAcquirer._set_float_node_val`: check availability and writability,
then clamp into `[GetMin, GetMax]` and store.  Python accepts an `int` for a
float node (`float(value)`), so `pyInt` arguments are coerced. -/
def _set_float_node_val (float_node : FloatNode) (value : PyVal) : Except PyErr FloatNode :=
  if !float_node.available || !float_node.writable then
    .error (.valueError s!"Float node {float_node.displayName} is not writable")
  else
    match value with
    | .pyFloat v =>
      let value1 := max v float_node.minVal
      let value2 := min value1 float_node.maxVal
      .ok { float_node with value := value2 }
    | .pyInt i =>
      let value1 := max (i : ℚ) float_node.minVal
      let value2 := min value1 float_node.maxVal
      .ok { float_node with value := value2 }
    | _ => .error (.typeError "unsupported operand type for max")

/-- `ImageAcquirer._get_bool_node_val`. -/
def _get_bool_node_val (bool_node : BoolNode) : Except PyErr Bool :=
  if !bool_node.available || !bool_node.readable then
    .error (.valueError s!"Boolean node {bool_node.displayName} is not readable")
  else
    .ok bool_node.value

/-- Python truthiness, as applied by `bool(value)` in `_set_bool_node_val`. -/
def pyTruthy : PyVal → Bool
  | .pyBool b => b
  | .pyNone => false
  | .pyInt i => i != 0
  | .pyFloat q => q != 0
  | .pyStr s => s != ""

/-- `ImageAcquirer._set_bool_node_val`. -/
def _set_bool_node_val (bool_node : BoolNode) (value : PyVal) : Except PyErr BoolNode :=
  if !bool_node.available || !bool_node.writable then
    .error (.valueError s!"Boolean node {bool_node.displayName} is not writable")
  else
    .ok { bool_node with value := pyTruthy value }

/-- `ImageAcquirer._get_available_enum_entries`: the symbolic names of the
entries that pass the `IsAvailable` filter. -/
def _get_available_enum_entries (enum_node : EnumNode) : Except PyErr (List String) :=
  if !enum_node.available || !enum_node.readable then
    .error (.valueError s!"Enumeration node {enum_node.displayName} is not readable")
  else
    .ok ((enum_node.entries.filter (fun e => e.entryAvailable)).map (fun e => e.symbolic))

/-- `ImageAcquirer._get_enum_node_val`: the symbolic name of the current entry. -/
def _get_enum_node_val (enum_node : EnumNode) : Except PyErr String :=
  if !enum_node.available || !enum_node.readable then
    .error (.valueError s!"Enumeration node {enum_node.displayName} is not readable")
  else
    .ok enum_node.current

/-- `ImageAcquirer._set_enum_node_val`: resolve `str(value)` to an entry via
`GetEntryByName`; a missing entry behaves like an unavailable one
(`IsAvailable(None)` is false in PySpin), then select the entry. -/
def _set_enum_node_val (enum_node : EnumNode) (value : PyVal) : Except PyErr EnumNode :=
  if !enum_node.available || !enum_node.writable then
    .error (.valueError s!"Enumeration node {enum_node.displayName} is not writable")
  else
    match enum_node.entries.find? (fun e => e.symbolic == pyToString value) with
    | none =>
      .error (.valueError s!"Entry {pyToString value} for enumeration node {enum_node.displayName} is not available")
    | some enum_entry =>
      if !enum_entry.entryAvailable || !enum_entry.entryReadable then
        .error (.valueError s!"Entry {pyToString value} for enumeration node {enum_node.displayName} is not available")
      else
        .ok { enum_node with current := enum_entry.symbolic }

/-- `ImageAcquirer._execute_command_node` after the command node has been
looked up; command execution has no modelled state effect. -/
def _execute_command_node (command_node : CommandNode) (node_name : String) : Except PyErr Unit :=
  if !command_node.available || !command_node.writable then
    .error (.valueError s!"Error: Command node {node_name} is not writable")
  else
    .ok ()

/-- Model of one vendor-SDK camera handle.  The `...Raises` fields script
whether the corresponding SDK call raises `SpinnakerException`. -/
structure Device where
  serial : String
  valid : Bool
  streaming : Bool
  initialized : Bool
  endAcqRaises : Bool
  deinitRaises : Bool
  beginAcqRaises : Bool
  deriving DecidableEq, Repr

/-- SDK `camera.EndAcquisition()`: raises when the stream was never started
or when scripted to fail, otherwise stops streaming. -/
def deviceEndAcquisition (d : Device) : Except PyErr Device :=
  if !d.streaming then
    .error (.spinnakerError "Stream has not been started")
  else if d.endAcqRaises then
    .error (.spinnakerError "EndAcquisition failed")
  else
    .ok { d with streaming := false }

/-- SDK `camera.DeInit()`. -/
def deviceDeInit (d : Device) : Except PyErr Device :=
  if d.deinitRaises then
    .error (.spinnakerError "DeInit failed")
  else
    .ok { d with initialized := false }

/-- SDK `camera.BeginAcquisition()`. -/
def deviceBeginAcquisition (d : Device) : Except PyErr Device :=
  if d.beginAcqRaises then
    .error (.spinnakerError "BeginAcquisition failed")
  else
    .ok { d with streaming := true }

/-- State of an `ImageAcquirer`: the enumerated device list, the currently
selected device and the three cached node maps (device,
transport-layer-device, transport-layer-stream). -/
structure ImageAcquirer where
  deviceList : List Device
  currentDevice : Option Device
  deviceNodes : List (String × Node)
  tlDeviceNodes : List (String × Node)
  tlStreamNodes : List (String × Node)
  deriving DecidableEq, Repr

/-- `ImageAcquirer._get_device_node_map`: requires a selected, valid and
initialized device. -/
def _get_device_node_map (ia : ImageAcquirer) : Except PyErr (List (String × Node)) :=
  match ia.currentDevice with
  | none => .error (.valueError "No device has been selected and initialied")
  | some d =>
    if !d.valid || !d.initialized then
      .error (.valueError "No device has been selected and initialied")
    else
      .ok ia.deviceNodes

/-- `ImageAcquirer._get_tl_device_node_map`: requires a selected valid device. -/
def _get_tl_device_node_map (ia : ImageAcquirer) : Except PyErr (List (String × Node)) :=
  match ia.currentDevice with
  | none => .error (.valueError "No device has been selected")
  | some d =>
    if !d.valid then .error (.valueError "No device has been selected")
    else .ok ia.tlDeviceNodes

/-- `ImageAcquirer._get_tl_stream_node_map`. -/
def _get_tl_stream_node_map (ia : ImageAcquirer) : Except PyErr (List (String × Node)) :=
  match ia.currentDevice with
  | none => .error (.valueError "No device has been selected")
  | some d =>
    if !d.valid then .error (.valueError "No device has been selected")
    else .ok ia.tlStreamNodes

/-- The three node-lookup scopes, in the fixed priority order used by
`_get_node`. -/
inductive Scope
  | deviceScope
  | tlDeviceScope
  | tlStreamScope
  deriving DecidableEq, Repr

/-- `ImageAcquirer._get_node`, additionally reporting which scope the name
resolved in so that a write can be put back into the same scope (the source
mutates the returned node object in place). -/
def _get_node_scoped (ia : ImageAcquirer) (node_name : String) :
    Except PyErr (Option (Scope × Node)) :=
  match _get_device_node_map ia with
  | .error e => .error e
  | .ok device_map =>
    match List.lookup node_name device_map with
    | some device_node => .ok (some (Scope.deviceScope, device_node))
    | none =>
      match _get_tl_device_node_map ia with
      | .error e => .error e
      | .ok tl_device_map =>
        match List.lookup node_name tl_device_map with
        | some tl_device_node => .ok (some (Scope.tlDeviceScope, tl_device_node))
        | none =>
          match _get_tl_stream_node_map ia with
          | .error e => .error e
          | .ok tl_stream_map =>
            match List.lookup node_name tl_stream_map with
            | some tl_stream_node => .ok (some (Scope.tlStreamScope, tl_stream_node))
            | none => .ok none

/-- `ImageAcquirer._get_node`. -/
def _get_node (ia : ImageAcquirer) (node_name : String) : Except PyErr (Option Node) :=
  match _get_node_scoped ia node_name with
  | .error e => .error e
  | .ok o => .ok (o.map Prod.snd)

/-- `ImageAcquirer.node_available`. -/
def node_available (ia : ImageAcquirer) (node_name : String) : Except PyErr Bool :=
  match _get_node ia node_name with
  | .error e => .error e
  | .ok none => .ok false
  | .ok (some node) => .ok (nodeIsAvailable node)

/-- Read dispatch of `ImageAcquirer.get_node_val` over the node interface
type (the reflective `dir(node)` membership guard of the source collapses
into the `unknownN` case). -/
def getNodeDispatch (node : Node) (node_name : String) : Except PyErr PyVal :=
  match node with
  | .intN n => (_get_int_node_val n).map PyVal.pyInt
  | .floatN n => (_get_float_node_val n).map PyVal.pyFloat
  | .boolN n => (_get_bool_node_val n).map PyVal.pyBool
  | .enumN n => (_get_enum_node_val n).map PyVal.pyStr
  | .stringN _ => .error (.notImplementedError "No getter implemented for string nodes")
  | .commandN _ => .error (.notImplementedError "No getter implemented for command nodes")
  | .unknownN _ => .error (.valueError s!"{node_name} node is of unknown type")

/-- `ImageAcquirer.get_node_val`. -/
def get_node_val (ia : ImageAcquirer) (node_name : String) : Except PyErr PyVal :=
  match _get_node ia node_name with
  | .error e => .error e
  | .ok none => .error (.valueError s!"{node_name} node is not available")
  | .ok (some node) => getNodeDispatch node node_name

/-- Write dispatch of `ImageAcquirer.set_node_val` over the node interface
type, returning the updated node. -/
def setNodeDispatch (node : Node) (node_name : String) (value : PyVal) : Except PyErr Node :=
  match node with
  | .intN n => (_set_int_node_val n value).map Node.intN
  | .floatN n => (_set_float_node_val n value).map Node.floatN
  | .boolN n => (_set_bool_node_val n value).map Node.boolN
  | .enumN n => (_set_enum_node_val n value).map Node.enumN
  | .stringN _ => .error (.notImplementedError "No setter implemented for string nodes")
  | .commandN _ => .error (.notImplementedError "No setter implemented for command nodes")
  | .unknownN _ => .error (.valueError s!"{node_name} node is of unknown type")

/-- Replace the binding of `node_name` in a node map (the source mutates the
node object held by the map). -/
def setNodeInMap (m : List (String × Node)) (node_name : String) (n : Node) :
    List (String × Node) :=
  m.map (fun p => if p.1 == node_name then (p.1, n) else p)

/-- Write an updated node back into the scope its name resolved in. -/
def writeNodeBack (ia : ImageAcquirer) (scope : Scope) (node_name : String) (n : Node) :
    ImageAcquirer :=
  match scope with
  | .deviceScope => { ia with deviceNodes := setNodeInMap ia.deviceNodes node_name n }
  | .tlDeviceScope => { ia with tlDeviceNodes := setNodeInMap ia.tlDeviceNodes node_name n }
  | .tlStreamScope => { ia with tlStreamNodes := setNodeInMap ia.tlStreamNodes node_name n }

/-- `ImageAcquirer.set_node_val`. -/
def set_node_val (ia : ImageAcquirer) (node_name : String) (value : PyVal) :
    Except PyErr ImageAcquirer :=
  match _get_node_scoped ia node_name with
  | .error e => .error e
  | .ok none => .error (.valueError s!"{node_name} node is not available")
  | .ok (some (scope, node)) =>
    (setNodeDispatch node node_name value).map (writeNodeBack ia scope node_name)

/-- `ImageAcquirer.execute_node`. -/
def execute_node (ia : ImageAcquirer) (node_name : String) : Except PyErr Unit :=
  match _get_node ia node_name with
  | .error e => .error e
  | .ok none => .error (.valueError s!"{node_name} node is not available")
  | .ok (some node) =>
    match node with
    | .commandN n => _execute_command_node n node_name
    | _ => .error (.valueError s!"{node_name} node is of unknown type")

/-- `ImageAcquirer.get_node_range`: only integer and float nodes have a range. -/
def get_node_range (ia : ImageAcquirer) (node_name : String) :
    Except PyErr (PyVal × PyVal) :=
  match _get_node ia node_name with
  | .error e => .error e
  | .ok none => .error (.valueError s!"{node_name} node is not available")
  | .ok (some node) =>
    match node with
    | .intN n => (_get_int_node_range n).map (fun p => (PyVal.pyInt p.1, PyVal.pyInt p.2))
    | .floatN n => (_get_float_node_range n).map (fun p => (PyVal.pyFloat p.1, PyVal.pyFloat p.2))
    | _ => .error (.valueError s!"Range not available for {node_name} node")

/-- `ImageAcquirer.get_node_entries`: only enumeration nodes have entries. -/
def get_node_entries (ia : ImageAcquirer) (node_name : String) :
    Except PyErr (List String) :=
  match _get_node ia node_name with
  | .error e => .error e
  | .ok none => .error (.valueError s!"{node_name} node is not available")
  | .ok (some node) =>
    match node with
    | .enumN n => _get_available_enum_entries n
    | _ => .error (.valueError s!"Range not available for {node_name} node")

/-- Observable teardown steps applied to the previously selected device by
`_reset_cam`. -/
inductive ResetAction
  | endAcq
  | deInit
  deriving DecidableEq, Repr

/-- `ImageAcquirer._reset_cam`: stop acquisition only if streaming,
deinitialize only if initialized, then clear the cached node maps and drop
the device reference.  Neither step is wrapped in a handler, so a raising
step propagates.  The performed steps are reported for observation. -/
def _reset_cam (ia : ImageAcquirer) : Except PyErr (ImageAcquirer × List ResetAction) :=
  let cleared : ImageAcquirer :=
    { ia with deviceNodes := [], tlDeviceNodes := [], tlStreamNodes := [], currentDevice := none }
  match ia.currentDevice with
  | none => .ok (cleared, [])
  | some d =>
    if d.valid then
      match (if d.streaming then
               (deviceEndAcquisition d).map (fun d1 => (d1, [ResetAction.endAcq]))
             else .ok (d, [])) with
      | .error e => .error e
      | .ok (d1, acts1) =>
        match (if d1.initialized then
                 (deviceDeInit d1).map (fun _ => acts1 ++ [ResetAction.deInit])
               else .ok acts1) with
        | .error e => .error e
        | .ok acts2 => .ok (cleared, acts2)
    else .ok (cleared, [])

/-- An invalid camera handle, as returned by `GetBySerial`/`GetByIndex` when
no matching device exists (`IsValid()` is false on it). -/
def invalidHandle : Device :=
  { serial := "", valid := false, streaming := false, initialized := false,
    endAcqRaises := false, deinitRaises := false, beginAcqRaises := false }

/-- SDK `camera_list.GetBySerial`. -/
def getBySerial (device_list : List Device) (serial : String) : Device :=
  match device_list.find? (fun d => d.serial == serial) with
  | some d => d
  | none => invalidHandle

/-- SDK `camera_list.GetByIndex`. -/
def getByIndex (device_list : List Device) (i : Nat) : Device :=
  (device_list.get? i).getD invalidHandle

/-- `ImageAcquirer.end_acquisition`: SDK failures are re-raised as
`ValueError`.  Called with no selected device, the attribute access on
`None` raises `AttributeError`. -/
def end_acquisition (ia : ImageAcquirer) : Except PyErr ImageAcquirer :=
  match ia.currentDevice with
  | none => .error (.attributeError "NoneType object has no attribute EndAcquisition")
  | some d =>
    match deviceEndAcquisition d with
    | .ok d1 => .ok { ia with currentDevice := some d1 }
    | .error _ => .error (.valueError "Error: EndAcquisition failed")

/-- `ImageAcquirer.init_device`: always reset the previous handle first,
then try the serial-derived candidate followed by the index-derived
candidate (the index one only when in range of the device count), select
the first valid candidate, raise `ValueError` when none is valid, `Init`
the selection and defensively stop any leftover acquisition (absorbing the
error).  The reset actions are reported alongside for observation. -/
def init_device (ia : ImageAcquirer) (device_serial : Option String)
    (device_index : Option Nat) : Except PyErr ImageAcquirer × List ResetAction :=
  match _reset_cam ia with
  | .error e => (.error e, [])
  | .ok (ia0, acts) =>
    let candidate_devices : List Device :=
      (match device_serial with
       | some s => [getBySerial ia0.deviceList s]
       | none => []) ++
      (match device_index with
       | some i => if i < ia0.deviceList.length then [getByIndex ia0.deviceList i] else []
       | none => [])
    match candidate_devices.find? (fun dev => dev.valid) with
    | none =>
      (.error (.valueError "No device with the given serial number or index is available"), acts)
    | some dev =>
      let dev1 : Device := { dev with initialized := true }
      let dev2 : Device :=
        match deviceEndAcquisition dev1 with
        | .ok d => d
        | .error _ => dev1
      (.ok { ia0 with currentDevice := some dev2 }, acts)

/-- One capture delivered by `GetNextImage`, with its completeness flag and
device timestamp. -/
structure Capture where
  incomplete : Bool
  timestamp : Int
  deriving DecidableEq, Repr

/-- The retry loop inside `ImageAcquirer.get_next_image`, driven by a finite
script of captures the device will deliver.  Returns the accepted capture,
the number of `GetNextImage` calls made and the number of `Release` calls
made so far; `none` models the `GetNextImage` timeout exception on an
exhausted script. -/
def getNextImageLoop : List Capture → Option (Capture × Nat × Nat)
  | [] => none
  | c :: rest =>
    if c.incomplete then
      match getNextImageLoop rest with
      | some (r, calls, rels) => some (r, calls + 1, rels + 1)
      | none => none
    else
      some (c, 1, 0)

/-- `ImageAcquirer.get_next_image`: loop past incomplete captures (releasing
each), then extract the data and timestamp of the complete capture and
release it as well.  Returns the timestamp together with the total
`GetNextImage` call count and `Release` count. -/
def get_next_image (script : List Capture) : Option (Int × Nat × Nat) :=
  match getNextImageLoop script with
  | some (c, calls, rels) => some (c.timestamp, calls, rels + 1)
  | none => none

/-- `ImageAcquirer.start_acquisition`: set `AcquisitionMode` to `Continuous`
(node errors propagate as raised), then `BeginAcquisition`, re-raising SDK
failures as `ValueError`. -/
def start_acquisition (ia : ImageAcquirer) : Except PyErr ImageAcquirer :=
  match set_node_val ia "AcquisitionMode" (PyVal.pyStr "Continuous") with
  | .error e => .error e
  | .ok ia1 =>
    match ia1.currentDevice with
    | none => .error (.attributeError "NoneType object has no attribute BeginAcquisition")
    | some d =>
      match deviceBeginAcquisition d with
      | .ok d1 => .ok { ia1 with currentDevice := some d1 }
      | .error _ => .error (.valueError "Error: BeginAcquisition failed")

/-- Record of what `ImageAcquirer.__del__` managed to do.  `listCleared` and
`systemReleased` report whether `self._device_list.Clear()` and
`self._system.ReleaseInstance()` ran; `raised` is the exception escaping
`_reset_cam`, if any (Python skips the remaining statements of `__del__`
when one is raised). -/
structure TeardownRecord where
  resetActions : List ResetAction
  listCleared : Bool
  systemReleased : Bool
  raised : Option PyErr
  deriving DecidableEq, Repr

/-- `ImageAcquirer.__del__`: `_reset_cam`, then clear the device list, then
release the SDK instance — sequenced without any exception handling. -/
def delImageAcquirer (ia : ImageAcquirer) : TeardownRecord :=
  match _reset_cam ia with
  | .error e => { resetActions := [], listCleared := false, systemReleased := false, raised := some e }
  | .ok (_, acts) => { resetActions := acts, listCleared := true, systemReleased := true, raised := none }

/-- `PySpinSrc.PixelFormatType`: static table entry mapping a device format
name to the output-side format name and caps category. -/
structure PixelFormatType where
  cap_type : String
  gst : String
  genicam : String
  deriving DecidableEq, Repr

/-- Caps category for raw video. -/
def RAW_CAP_TYPE : String := "video/x-raw"

/-- Caps category for Bayer-mosaic video. -/
def BAYER_CAP_TYPE : String := "video/x-bayer"

/-- `PySpinSrc.SUPPORTED_PIXEL_FORMATS` (the `Mono16` line is commented out
in the source). -/
def SUPPORTED_PIXEL_FORMATS : List PixelFormatType :=
  [ { cap_type := RAW_CAP_TYPE, gst := "GRAY8", genicam := "Mono8" },
    { cap_type := RAW_CAP_TYPE, gst := "UYVY", genicam := "YUV422Packed" },
    { cap_type := RAW_CAP_TYPE, gst := "YUY2", genicam := "YCbCr422_8" },
    { cap_type := RAW_CAP_TYPE, gst := "RGB", genicam := "RGB8" },
    { cap_type := RAW_CAP_TYPE, gst := "BGR", genicam := "BGR8" },
    { cap_type := BAYER_CAP_TYPE, gst := "rggb", genicam := "BayerRG8" },
    { cap_type := BAYER_CAP_TYPE, gst := "gbrg", genicam := "BayerGB8" },
    { cap_type := BAYER_CAP_TYPE, gst := "bggr", genicam := "BayerBG8" },
    { cap_type := BAYER_CAP_TYPE, gst := "grbg", genicam := "BayerGR8" } ]

/-- Python `str.lower()` on one character; the format names involved are
all ASCII, where Python and this model agree. -/
def asciiLowerChar (c : Char) : Char :=
  if 65 ≤ c.toNat ∧ c.toNat ≤ 90 then Char.ofNat (c.toNat + 32) else c

/-- Python `str.lower()` as used by the case-insensitive format lookups. -/
def pyLower (s : String) : String :=
  String.mk (s.data.map asciiLowerChar)

/-- `PySpinSrc.get_format_from_genicam`. -/
def get_format_from_genicam (genicam_format : String) : Option PixelFormatType :=
  SUPPORTED_PIXEL_FORMATS.find? (fun f => pyLower f.genicam == pyLower genicam_format)

/-- `PySpinSrc.get_format_from_gst`. -/
def get_format_from_gst (gst_format : String) : Option PixelFormatType :=
  SUPPORTED_PIXEL_FORMATS.find? (fun f => pyLower f.gst == pyLower gst_format)

/-- State of the `PySpinSrc` element: the owned `ImageAcquirer`, the GObject
properties, the negotiated video info and the timestamp baseline. -/
structure PySpinSrc where
  image_acquirer : ImageAcquirer
  auto_exposure : Bool
  auto_gain : Bool
  exposure_time : ℚ
  gain : ℚ
  auto_wb : Bool
  wb_blue : ℚ
  wb_red : ℚ
  h_binning : Int
  v_binning : Int
  offset_x : Int
  offset_y : Int
  num_cam_buffers : Int
  serial : Option String
  user_set : String
  info_format : String
  info_width : Int
  info_height : Int
  info_fps_n : Int
  info_fps_d : Int
  timestamp_offset : Int
  previous_timestamp : Int
  deriving DecidableEq, Repr

/-- `PySpinSrc.__init__` defaults (video info starts unset). -/
def pySpinSrcInit (ia : ImageAcquirer) : PySpinSrc :=
  { image_acquirer := ia,
    auto_exposure := true, auto_gain := true,
    exposure_time := -1, gain := -1,
    auto_wb := true, wb_blue := -1, wb_red := -1,
    h_binning := 1, v_binning := 1,
    offset_x := 0, offset_y := 0,
    num_cam_buffers := 10,
    serial := none, user_set := "Default",
    info_format := "", info_width := 0, info_height := 0,
    info_fps_n := 0, info_fps_d := 1,
    timestamp_offset := 0, previous_timestamp := 0 }

/-- An `ImageAcquirer` with nothing enumerated and nothing selected. -/
def emptyAcquirer : ImageAcquirer :=
  { deviceList := [], currentDevice := none,
    deviceNodes := [], tlDeviceNodes := [], tlStreamNodes := [] }

/-- `PySpinSrc.do_get_property`: the property dispatch chain exactly as
written in the source (note that it has no `wb-blue-ratio` branch, so that
name falls through to the unknown-property `AttributeError`). -/
def do_get_property (s : PySpinSrc) (prop_name : String) : Except PyErr PyVal :=
  if prop_name = "auto-exposure" then .ok (.pyBool s.auto_exposure)
  else if prop_name = "auto-gain" then .ok (.pyBool s.auto_gain)
  else if prop_name = "exposure" then .ok (.pyFloat s.exposure_time)
  else if prop_name = "gain" then .ok (.pyFloat s.gain)
  else if prop_name = "auto-wb" then .ok (.pyBool s.auto_wb)
  else if prop_name = "wb-red-ratio" then .ok (.pyFloat s.wb_red)
  else if prop_name = "h-binning" then .ok (.pyInt s.h_binning)
  else if prop_name = "v-binning" then .ok (.pyInt s.v_binning)
  else if prop_name = "offset-x" then .ok (.pyInt s.offset_x)
  else if prop_name = "offset-y" then .ok (.pyInt s.offset_y)
  else if prop_name = "num-image-buffers" then .ok (.pyInt s.num_cam_buffers)
  else if prop_name = "serial" then
    .ok (match s.serial with
         | some v => .pyStr v
         | none => .pyNone)
  else if prop_name = "user-set" then .ok (.pyStr s.user_set)
  else .error (.attributeError ("unknown property " ++ prop_name))

/-- GObject delivers property values already validated against the declared
parameter type; a mismatch is modelled as `TypeError`. -/
def asPyBool : PyVal → Except PyErr Bool
  | .pyBool b => .ok b
  | _ => .error (.typeError "expected a boolean")

/-- Float-typed GObject parameters also accept integers. -/
def asPyFloat : PyVal → Except PyErr ℚ
  | .pyFloat q => .ok q
  | .pyInt i => .ok (i : ℚ)
  | _ => .error (.typeError "expected a float")

/-- Int-typed GObject parameter values. -/
def asPyInt : PyVal → Except PyErr Int
  | .pyInt i => .ok i
  | _ => .error (.typeError "expected an int")

/-- String-typed GObject parameter values; `None` is legal for `serial`. -/
def asPyOptStr : PyVal → Except PyErr (Option String)
  | .pyStr s => .ok (some s)
  | .pyNone => .ok none
  | _ => .error (.typeError "expected a string")

/-- `PySpinSrc.do_set_property`: the property dispatch chain exactly as
written in the source (this one does have a `wb-blue-ratio` branch). -/
def do_set_property (s : PySpinSrc) (prop_name : String) (value : PyVal) :
    Except PyErr PySpinSrc :=
  if prop_name = "auto-exposure" then (asPyBool value).map (fun b => { s with auto_exposure := b })
  else if prop_name = "auto-gain" then (asPyBool value).map (fun b => { s with auto_gain := b })
  else if prop_name = "exposure" then (asPyFloat value).map (fun q => { s with exposure_time := q })
  else if prop_name = "gain" then (asPyFloat value).map (fun q => { s with gain := q })
  else if prop_name = "auto-wb" then (asPyBool value).map (fun b => { s with auto_wb := b })
  else if prop_name = "wb-blue-ratio" then (asPyFloat value).map (fun q => { s with wb_blue := q })
  else if prop_name = "wb-red-ratio" then (asPyFloat value).map (fun q => { s with wb_red := q })
  else if prop_name = "h-binning" then (asPyInt value).map (fun i => { s with h_binning := i })
  else if prop_name = "v-binning" then (asPyInt value).map (fun i => { s with v_binning := i })
  else if prop_name = "offset-x" then (asPyInt value).map (fun i => { s with offset_x := i })
  else if prop_name = "offset-y" then (asPyInt value).map (fun i => { s with offset_y := i })
  else if prop_name = "num-image-buffers" then (asPyInt value).map (fun i => { s with num_cam_buffers := i })
  else if prop_name = "serial" then (asPyOptStr value).map (fun v => { s with serial := v })
  else if prop_name = "user-set" then (asPyOptStr value).map (fun v => { s with user_set := v.getD "None" })
  else .error (.attributeError ("unknown property " ++ prop_name))

/-- `PySpinSrc.cam_node_available`: catches `ValueError` and
`NotImplementedError`, returning `False` instead (these are the only kinds
`node_available` produces). -/
def cam_node_available (ia : ImageAcquirer) (node_name : String) : Bool :=
  match node_available ia node_name with
  | .ok b => b
  | .error _ => false

/-- `PySpinSrc.get_cam_node_val`: catches `ValueError` and
`NotImplementedError`, returning `None` instead (the only kinds
`get_node_val` produces). -/
def get_cam_node_val (ia : ImageAcquirer) (node_name : String) : Option PyVal :=
  match get_node_val ia node_name with
  | .ok v => some v
  | .error _ => none

/-- `PySpinSrc.set_cam_node_val`: catches `ValueError` and
`NotImplementedError` (logging a warning); any other exception kind
propagates and is reported in the second component. -/
def set_cam_node_val (ia : ImageAcquirer) (node_name : String) (value : PyVal) :
    ImageAcquirer × Option PyErr :=
  match set_node_val ia node_name value with
  | .ok ia1 => (ia1, none)
  | .error e => if caught_by_helpers e then (ia, none) else (ia, some e)

/-- `PySpinSrc.get_cam_node_entries`: catches the errors, returning `[]`. -/
def get_cam_node_entries (ia : ImageAcquirer) (node_name : String) : List String :=
  match get_node_entries ia node_name with
  | .ok l => l
  | .error _ => []

/-- `PySpinSrc.get_cam_node_range`: catches the errors, returning
`(None, None)`. -/
def get_cam_node_range (ia : ImageAcquirer) (node_name : String) :
    Option PyVal × Option PyVal :=
  match get_node_range ia node_name with
  | .ok (a, b) => (some a, some b)
  | .error _ => (none, none)

/-- A camera-configuration step: it transforms the acquirer and may let an
uncaught exception escape. -/
def CamM : Type := ImageAcquirer → ImageAcquirer × Option PyErr

/-- A step that does nothing. -/
def camPure : CamM := fun ia => (ia, none)

/-- Sequence two steps, short-circuiting on an escaped exception. -/
def camSeq (a b : CamM) : CamM := fun ia =>
  match a ia with
  | (ia1, none) => b ia1
  | (ia1, some e) => (ia1, some e)

/-- Sequence a list of steps. -/
def camAll (l : List CamM) : CamM := l.foldr camSeq camPure

/-- Guard a step by a host-side condition (a Python `if` in the source). -/
def camIf (c : Prop) [Decidable c] (a : CamM) : CamM :=
  fun ia => if c then a ia else (ia, none)

/-- Guard a step by `cam_node_available` on the current acquirer state. -/
def camWhenAvailable (node_name : String) (a : CamM) : CamM :=
  fun ia => if cam_node_available ia node_name then a ia else (ia, none)

/-- One `set_cam_node_val` call as a configuration step. -/
def camSet (node_name : String) (value : PyVal) : CamM :=
  fun ia => set_cam_node_val ia node_name value

/-- One `execute_cam_node` call as a configuration step: it catches
`ValueError`/`NotImplementedError` (the only kinds `execute_node`
produces), and command execution has no modelled state effect. -/
def camExec (node_name : String) : CamM :=
  fun ia =>
    match execute_node ia node_name with
    | .ok _ => (ia, none)
    | .error _ => (ia, none)

/-- `PySpinSrc.apply_properties_to_cam`: every individual node write is a
`set_cam_node_val` that logs and swallows `ValueError`/`NotImplementedError`;
the surrounding `except Exception` turns any escaped exception into a
`False` result. -/
def apply_properties_to_cam (s : PySpinSrc) : PySpinSrc × Bool :=
  let steps : CamM := camAll
    [ camSet "UserSetSelector" (.pyStr s.user_set),
      camExec "UserSetLoad",
      camSet "StreamBufferHandlingMode" (.pyStr "OldestFirst"),
      camSet "StreamBufferCountMode" (.pyStr "Manual"),
      camSet "StreamBufferCountManual" (.pyInt s.num_cam_buffers),
      camIf (1 < s.h_binning) (camSet "BinningHorizontal" (.pyInt s.h_binning)),
      camIf (1 < s.v_binning) (camSet "BinningVertical" (.pyInt s.v_binning)),
      camIf (0 ≤ s.exposure_time) (camAll
        [ camSet "ExposureAuto" (.pyStr "Off"),
          camSet "ExposureTime" (.pyFloat s.exposure_time) ]),
      camIf (s.auto_exposure = true) (camSet "ExposureAuto" (.pyStr "Continuous")),
      camIf (0 ≤ s.gain) (camAll
        [ camSet "GainAuto" (.pyStr "Off"),
          camSet "Gain" (.pyFloat s.gain) ]),
      camIf (s.auto_gain = true) (camSet "GainAuto" (.pyStr "Continuous")),
      camWhenAvailable "BalanceWhiteAuto" (camAll
        [ camIf (0 ≤ s.wb_blue) (camAll
            [ camSet "BalanceWhiteAuto" (.pyStr "Off"),
              camSet "BalanceRatioSelector" (.pyStr "Blue"),
              camSet "BalanceRatio" (.pyFloat s.wb_blue) ]),
          camIf (0 ≤ s.wb_red) (camAll
            [ camSet "BalanceWhiteAuto" (.pyStr "Off"),
              camSet "BalanceRatioSelector" (.pyStr "Red"),
              camSet "BalanceRatio" (.pyFloat s.wb_red) ]),
          camIf (s.auto_wb = true) (camSet "BalanceWhiteAuto" (.pyStr "Continuous")) ]) ]
  match steps s.image_acquirer with
  | (ia1, none) => ({ s with image_acquirer := ia1 }, true)
  | (ia1, some _) => ({ s with image_acquirer := ia1 }, false)

/-- `PySpinSrc.apply_caps_to_cam`: look up the negotiated format (an
unknown format makes the `.genicam` access on `None` raise
`AttributeError`, which the `except (ValueError, NotImplementedError)`
clause does not catch), write the mandatory caps nodes through the
swallowing helper, then write the frame rate (`fps_n / fps_d` raises
`ZeroDivisionError` when `fps_d` is zero). -/
def apply_caps_to_cam (s : PySpinSrc) : PySpinSrc × Except PyErr Bool :=
  match get_format_from_gst s.info_format with
  | none => (s, .error (.attributeError "NoneType object has no attribute genicam"))
  | some fmt =>
    let steps : CamM := camAll
      [ camSet "PixelFormat" (.pyStr fmt.genicam),
        camSet "Height" (.pyInt s.info_height),
        camSet "Width" (.pyInt s.info_width),
        camSet "OffsetY" (.pyInt s.offset_y),
        camSet "OffsetX" (.pyInt s.offset_x),
        (fun ia =>
          if cam_node_available ia "AcquisitionFrameRateEnable" then
            camSet "AcquisitionFrameRateEnable" (.pyBool true) ia
          else
            camAll
              [ camSet "AcquisitionFrameRateAuto" (.pyStr "Off"),
                camSet "AcquisitionFrameRateEnabled" (.pyBool true) ] ia) ]
    match steps s.image_acquirer with
    | (ia1, some e) =>
      ({ s with image_acquirer := ia1 }, if caught_by_helpers e then .ok false else .error e)
    | (ia1, none) =>
      if s.info_fps_d = 0 then
        ({ s with image_acquirer := ia1 }, .error (.zeroDivisionError "division by zero"))
      else
        match camSet "AcquisitionFrameRate"
            (.pyFloat ((s.info_fps_n : ℚ) / (s.info_fps_d : ℚ))) ia1 with
        | (ia2, none) => ({ s with image_acquirer := ia2 }, .ok true)
        | (ia2, some e) =>
          ({ s with image_acquirer := ia2 }, if caught_by_helpers e then .ok false else .error e)

/-- `PySpinSrc.start_streaming`: apply the caps, then start acquisition,
catching only `ValueError` from `start_acquisition` (returning `False`). -/
def start_streaming (s : PySpinSrc) : PySpinSrc × Except PyErr Bool :=
  match apply_caps_to_cam s with
  | (s1, .error e) => (s1, .error e)
  | (s1, .ok false) => (s1, .ok false)
  | (s1, .ok true) =>
    match start_acquisition s1.image_acquirer with
    | .ok ia1 => ({ s1 with image_acquirer := ia1 }, .ok true)
    | .error (.valueError _) => (s1, .ok false)
    | .error e => (s1, .error e)

/-- One structure of the probed caps: format identity plus the width,
height and frame-rate bounds read while that format was active. -/
structure CapsEntry where
  cap_type : String
  format : String
  width_min : Int
  width_max : Int
  height_min : Int
  height_max : Int
  framerate_min : ℚ
  framerate_max : ℚ
  deriving DecidableEq, Repr

/-- Python `range(a, b)` as used for `Gst.IntRange`: only integers are
accepted, anything else (in particular `None` from a failed range query)
raises `TypeError`. -/
def asIntRange : Option PyVal → Option PyVal → Option (Int × Int)
  | some (.pyInt a), some (.pyInt b) => some (a, b)
  | _, _ => none

/-- `Gst.util_double_to_fraction` arguments: numbers only, `None` raises
`TypeError`. -/
def asFloatRange : Option PyVal → Option PyVal → Option (ℚ × ℚ)
  | some (.pyFloat a), some (.pyFloat b) => some (a, b)
  | some (.pyInt a), some (.pyInt b) => some ((a : ℚ), (b : ℚ))
  | _, _ => none

/-- The probing loop of `PySpinSrc.get_camera_caps`: for each supported
format, set the device to it, read the three ranges, and append one caps
structure.  A `None` in any range makes the `Gst.IntRange(range(...))` (or
fraction) construction raise `TypeError`, which escapes the loop; the
acquirer state at that moment is returned alongside. -/
def get_camera_caps_loop (ia : ImageAcquirer) (formats : List PixelFormatType)
    (acc : List CapsEntry) : ImageAcquirer × Except PyErr (List CapsEntry) :=
  match formats with
  | [] => (ia, .ok acc)
  | pixel_format :: rest =>
    match set_cam_node_val ia "PixelFormat" (.pyStr pixel_format.genicam) with
    | (ia1, some e) => (ia1, .error e)
    | (ia1, none) =>
      let wrange := get_cam_node_range ia1 "Width"
      let hrange := get_cam_node_range ia1 "Height"
      let frange := get_cam_node_range ia1 "AcquisitionFrameRate"
      match asIntRange wrange.1 wrange.2, asIntRange hrange.1 hrange.2,
            asFloatRange frange.1 frange.2 with
      | some (wmin, wmax), some (hmin, hmax), some (fmin, fmax) =>
        get_camera_caps_loop ia1 rest
          (acc ++ [{ cap_type := pixel_format.cap_type, format := pixel_format.gst,
                     width_min := wmin, width_max := wmax,
                     height_min := hmin, height_max := hmax,
                     framerate_min := fmin, framerate_max := fmax }])
      | _, _, _ =>
        (ia1, .error (.typeError "NoneType object cannot be interpreted as an integer"))

/-- The `PyVal` actually passed to the restoring `set_cam_node_val`: the
value read before probing, or Python `None` when that read failed. -/
def optValToPy : Option PyVal → PyVal
  | some v => v
  | none => .pyNone

/-- `PySpinSrc.get_camera_caps`: record the current pixel format, probe
every device-reported entry that maps to a supported format, then set the
pixel format back to the starting value.  The restore statement is only
reached when the loop finishes without an escaped exception (there is no
`try`/`finally` in the source). -/
def get_camera_caps (ia : ImageAcquirer) : ImageAcquirer × Except PyErr (List CapsEntry) :=
  let starting_pixel_format := get_cam_node_val ia "PixelFormat"
  let genicam_formats := get_cam_node_entries ia "PixelFormat"
  let supported_pixel_formats0 := genicam_formats.map get_format_from_genicam
  let supported_pixel_formats := supported_pixel_formats0.reduceOption
  match get_camera_caps_loop ia supported_pixel_formats [] with
  | (ia1, .error e) => (ia1, .error e)
  | (ia1, .ok camera_caps) =>
    match set_cam_node_val ia1 "PixelFormat" (optValToPy starting_pixel_format) with
    | (ia2, none) => (ia2, .ok camera_caps)
    | (ia2, some e) => (ia2, .error e)

/-- The currently selected pixel format of the device-scope `PixelFormat`
enumeration node, for observing probe effects. -/
def currentPixelFormat (ia : ImageAcquirer) : Option String :=
  match List.lookup "PixelFormat" ia.deviceNodes with
  | some (.enumN e) => some e.current
  | _ => none

/-- GStreamer flow return values relevant to `do_gst_push_src_fill`. -/
inductive FlowRet
  | ok
  | error
  deriving DecidableEq, Repr

/-- `PySpinSrc.do_gst_push_src_fill` driven by a capture script: pull the
next complete image, lazily fix the timestamp baseline when the stored
offset is still zero, stamp the buffer with presentation time
`ts - offset` and duration `ts - previous`, and update `previous`.  Any
exception (for instance a `GetNextImage` timeout, modelled by the script
running out) is caught and mapped to `FlowRet.error`.  The third component
is the `(pts, duration)` pair stamped on the buffer. -/
def do_gst_push_src_fill (s : PySpinSrc) (script : List Capture) :
    PySpinSrc × FlowRet × Option (Int × Int) :=
  match get_next_image script with
  | none => (s, .error, none)
  | some (image_timestamp_ns, _calls, _rels) =>
    let s1 :=
      if s.timestamp_offset = 0 then
        { s with timestamp_offset := image_timestamp_ns,
                 previous_timestamp := image_timestamp_ns }
      else s
    let pts := image_timestamp_ns - s1.timestamp_offset
    let duration := image_timestamp_ns - s1.previous_timestamp
    ({ s1 with previous_timestamp := image_timestamp_ns }, .ok, some (pts, duration))

/-- A complete capture with the given device timestamp. -/
def completeCapture (ts : Int) : Capture := { incomplete := false, timestamp := ts }

/-- Run the fill callback once per device capture time, collecting the
`(pts, duration)` pairs stamped on the delivered buffers. -/
def fillRun : PySpinSrc → List Int → List (Int × Int)
  | _, [] => []
  | s, ts :: rest =>
    match do_gst_push_src_fill s [completeCapture ts] with
    | (s1, _, some pd) => pd :: fillRun s1 rest
    | (s1, _, none) => fillRun s1 rest

/-- Run the fill callback once per device capture time, collecting the
element state after each call. -/
def fillStates : PySpinSrc → List Int → List PySpinSrc
  | _, [] => []
  | s, ts :: rest =>
    let s1 := (do_gst_push_src_fill s [completeCapture ts]).1
    s1 :: fillStates s1 rest

/-- A valid, initialized, idle camera handle used by concrete examples. -/
def okDevice : Device :=
  { serial := "20000", valid := true, streaming := false, initialized := true,
    endAcqRaises := false, deinitRaises := false, beginAcqRaises := false }

/-- A valid handle that is currently streaming and initialized. -/
def exStreamingDevice : Device :=
  { serial := "S1", valid := true, streaming := true, initialized := true,
    endAcqRaises := false, deinitRaises := false, beginAcqRaises := false }

/-- A valid handle that is neither streaming nor initialized. -/
def exIdleDevice : Device :=
  { serial := "S2", valid := true, streaming := false, initialized := false,
    endAcqRaises := false, deinitRaises := false, beginAcqRaises := false }

/-- A streaming handle whose `EndAcquisition` call raises. -/
def exBreakingDevice : Device :=
  { serial := "S3", valid := true, streaming := true, initialized := true,
    endAcqRaises := true, deinitRaises := false, beginAcqRaises := false }

/-- The `Mono8` enumeration entry. -/
def mono8Entry : EnumEntry :=
  { symbolic := "Mono8", entryAvailable := true, entryReadable := true }

/-- The `RGB8` enumeration entry. -/
def rgb8Entry : EnumEntry :=
  { symbolic := "RGB8", entryAvailable := true, entryReadable := true }

/-- The `Continuous` enumeration entry of `AcquisitionMode`. -/
def continuousEntry : EnumEntry :=
  { symbolic := "Continuous", entryAvailable := true, entryReadable := true }

/-- A `PixelFormat` node offering `Mono8` and `RGB8`, currently on `RGB8`. -/
def exPixelFormatTwo : EnumNode :=
  { displayName := "PixelFormat", available := true, readable := true, writable := true,
    entries := [mono8Entry, rgb8Entry], current := "RGB8" }

/-- A device state whose node map has only `PixelFormat`: every probed
format's `Width`/`Height`/`AcquisitionFrameRate` range query fails. -/
def exProbeBrokenIa : ImageAcquirer :=
  { deviceList := [], currentDevice := some okDevice,
    deviceNodes := [("PixelFormat", Node.enumN exPixelFormatTwo)],
    tlDeviceNodes := [], tlStreamNodes := [] }

/-- A `PixelFormat` node offering only `Mono8`, currently on `Mono8`. -/
def exPixelFormatMono : EnumNode :=
  { displayName := "PixelFormat", available := true, readable := true, writable := true,
    entries := [mono8Entry], current := "Mono8" }

/-- An example `Width` node. -/
def exWidthNode : IntNode :=
  { displayName := "Width", available := true, readable := true, writable := true,
    minVal := 4, maxVal := 1920, value := 1920 }

/-- An example `Height` node. -/
def exHeightNode : IntNode :=
  { displayName := "Height", available := true, readable := true, writable := true,
    minVal := 4, maxVal := 1080, value := 1080 }

/-- An example `AcquisitionFrameRate` node. -/
def exFrameRateNode : FloatNode :=
  { displayName := "AcquisitionFrameRate", available := true, readable := true,
    writable := true, minVal := 1, maxVal := 60, value := 30 }

/-- A device state on which capability probing fully succeeds. -/
def exProbeGoodIa : ImageAcquirer :=
  { deviceList := [], currentDevice := some okDevice,
    deviceNodes :=
      [("PixelFormat", Node.enumN exPixelFormatMono),
       ("Width", Node.intN exWidthNode),
       ("Height", Node.intN exHeightNode),
       ("AcquisitionFrameRate", Node.floatN exFrameRateNode)],
    tlDeviceNodes := [], tlStreamNodes := [] }

/-- An `AcquisitionMode` node with the `Continuous` entry. -/
def exAcqModeNode : EnumNode :=
  { displayName := "AcquisitionMode", available := true, readable := true, writable := true,
    entries := [continuousEntry], current := "Continuous" }

/-- A device state that has only the `AcquisitionMode` node: the mandatory
caps nodes (`PixelFormat`, ROI, frame rate) are all missing, yet
acquisition can still be started. -/
def exStartIa : ImageAcquirer :=
  { deviceList := [], currentDevice := some okDevice,
    deviceNodes := [("AcquisitionMode", Node.enumN exAcqModeNode)],
    tlDeviceNodes := [], tlStreamNodes := [] }

/-- Element state over `exStartIa` with a negotiated GRAY8 format. -/
def exStartSrc : PySpinSrc :=
  { pySpinSrcInit exStartIa with
    info_format := "GRAY8"
    info_width := 640
    info_height := 480
    info_fps_n := 30
    info_fps_d := 1 }

/-- Element state with a selected device but completely empty node maps. -/
def exEmptyMapsSrc : PySpinSrc :=
  { pySpinSrcInit { emptyAcquirer with currentDevice := some okDevice } with
    info_format := "GRAY8"
    info_fps_n := 30
    info_fps_d := 1 }

/-- Equality of `Except` results is decidable when both components are. -/
instance {ε α : Type} [DecidableEq ε] [DecidableEq α] : DecidableEq (Except ε α) := fun a b =>
  match a, b with
  | .ok x, .ok y =>
    if h : x = y then .isTrue (by rw [h]) else .isFalse (by simp [h])
  | .error x, .error y =>
    if h : x = y then .isTrue (by rw [h]) else .isFalse (by simp [h])
  | .ok _, .error _ => .isFalse (by simp)
  | .error _, .ok _ => .isFalse (by simp)

/-- A device-scope `Gain` node. -/
def exGainDevNode : FloatNode :=
  { displayName := "Gain", available := true, readable := true, writable := true,
    minVal := 0, maxVal := 47, value := 1 }

/-- A transport-layer-device-scope node with the same name `Gain` but a
different current value. -/
def exGainTlNode : FloatNode :=
  { displayName := "Gain", available := true, readable := true, writable := true,
    minVal := 0, maxVal := 47, value := 5 }

/-- A state where the name `Gain` resolves in both the device scope and the
transport-layer-device scope. -/
def exScopesIa : ImageAcquirer :=
  { deviceList := [], currentDevice := some okDevice,
    deviceNodes := [("Gain", Node.floatN exGainDevNode)],
    tlDeviceNodes := [("Gain", Node.floatN exGainTlNode)],
    tlStreamNodes := [] }

/-- An acquirer holding the handle whose `EndAcquisition` raises. -/
def exTeardownBrokenIa : ImageAcquirer :=
  { deviceList := [], currentDevice := some exBreakingDevice,
    deviceNodes := [], tlDeviceNodes := [], tlStreamNodes := [] }

/-- An acquirer holding a well-behaved streaming handle. -/
def exTeardownOkIa : ImageAcquirer :=
  { deviceList := [], currentDevice := some exStreamingDevice,
    deviceNodes := [], tlDeviceNodes := [], tlStreamNodes := [] }

/-- A two-camera device list for open-by-serial examples. -/
def exDeviceA : Device :=
  { serial := "A", valid := true, streaming := false, initialized := false,
    endAcqRaises := false, deinitRaises := false, beginAcqRaises := false }

/-- Second camera of the example device list. -/
def exDeviceB : Device :=
  { serial := "B", valid := true, streaming := false, initialized := false,
    endAcqRaises := false, deinitRaises := false, beginAcqRaises := false }

/-- An acquirer that has enumerated two cameras and selected none. -/
def exOpenListIa : ImageAcquirer :=
  { deviceList := [exDeviceA, exDeviceB], currentDevice := none,
    deviceNodes := [], tlDeviceNodes := [], tlStreamNodes := [] }

/-- An acquirer holding the streaming handle, with two cameras enumerated. -/
def exReopenIa : ImageAcquirer :=
  { deviceList := [exDeviceA, exDeviceB], currentDevice := some exStreamingDevice,
    deviceNodes := [], tlDeviceNodes := [], tlStreamNodes := [] }

/-- C2: for every Integer or Float node that is available and writable, and
every requested value `v` with node bounds `[lo, hi]`, `set(v)` stores
exactly `max(lo, min(hi, v))` — out-of-range requests are silently clamped
into the bounds, never rejected with an error. -/
theorem int_float_set_clamps_into_bounds :
    (∀ (n : IntNode) (v : Int), n.available = true → n.writable = true →
        n.minVal ≤ n.maxVal →
        _set_int_node_val n (.pyInt v) = .ok { n with value := max n.minVal (min n.maxVal v) }) ∧
    (∀ (m : FloatNode) (q : ℚ), m.available = true → m.writable = true →
        m.minVal ≤ m.maxVal →
        _set_float_node_val m (.pyFloat q) = .ok { m with value := max m.minVal (min m.maxVal q) }) := by
  constructor
  · intro n v ha hw hle
    have hcl : min (max v n.minVal) n.maxVal = max n.minVal (min n.maxVal v) := by omega
    simp [_set_int_node_val, ha, hw, hcl]
  · intro m q ha hw hle
    have hcl : min (max q m.minVal) m.maxVal = max m.minVal (min m.maxVal q) := by
      rcases le_total q m.minVal with h1 | h1 <;> rcases le_total q m.maxVal with h2 | h2 <;>
        simp [max_def, min_def] <;> split_ifs <;> first | rfl | linarith
    simp [_set_float_node_val, ha, hw, hcl]

/-- Witness for the clamping theorem at concrete nodes and values. -/
theorem int_float_set_clamps_witness :
    _set_int_node_val exWidthNode (.pyInt 5000) =
      .ok { exWidthNode with value := max exWidthNode.minVal (min exWidthNode.maxVal 5000) } ∧
    _set_float_node_val exFrameRateNode (.pyFloat (-3)) =
      .ok { exFrameRateNode with value := max exFrameRateNode.minVal (min exFrameRateNode.maxVal (-3)) } :=
  ⟨int_float_set_clamps_into_bounds.1 exWidthNode 5000 rfl rfl (by decide),
   int_float_set_clamps_into_bounds.2 exFrameRateNode (-3) rfl rfl (by decide)⟩

/-- Helper: running the retry loop on a script of `pre` incomplete captures
followed by a complete one accepts the complete capture after
`pre.length + 1` calls, having released the `pre.length` incomplete ones. -/
theorem getNextImageLoop_scripted (pre : List Capture) (cap : Capture) (rest : List Capture)
    (hpre : ∀ x ∈ pre, x.incomplete = true) (hcap : cap.incomplete = false) :
    getNextImageLoop (pre ++ cap :: rest) = some (cap, pre.length + 1, pre.length) := by
  induction pre with
  | nil => simp [getNextImageLoop, hcap]
  | cons a pre ih =>
    have ha : a.incomplete = true := hpre a (by simp)
    have ih2 := ih (fun x hx => hpre x (by simp [hx]))
    simp [getNextImageLoop, ha, ih2]

/-- C3: the frame pump never returns a capture reported incomplete; on a
script that reports incomplete for the first N calls and complete on call
N+1, `get_next_image` returns after exactly N+1 `GetNextImage` calls,
having released the N incomplete captures and the complete one. -/
theorem frame_pump_skips_incomplete_and_releases :
    (∀ (script : List Capture) (c : Capture) (calls rels : Nat),
        getNextImageLoop script = some (c, calls, rels) → c.incomplete = false) ∧
    (∀ (pre : List Capture) (cap : Capture) (rest : List Capture),
        (∀ x ∈ pre, x.incomplete = true) → cap.incomplete = false →
        get_next_image (pre ++ cap :: rest) =
          some (cap.timestamp, pre.length + 1, pre.length + 1)) := by
  constructor
  · intro script
    induction script with
    | nil => intro c calls rels h; simp [getNextImageLoop] at h
    | cons a rest ih =>
      intro c calls rels h
      by_cases ha : a.incomplete
      · simp only [getNextImageLoop, ha, if_pos] at h
        cases hrec : getNextImageLoop rest with
        | none => rw [hrec] at h; simp at h
        | some r =>
          obtain ⟨r0, cl, rl⟩ := r
          rw [hrec] at h
          simp only [Option.some.injEq, Prod.mk.injEq] at h
          obtain ⟨hc, -⟩ := h
          subst hc
          exact ih r0 cl rl hrec
      · simp only [getNextImageLoop, ha, if_neg, Bool.false_eq_true,
          not_false_eq_true, if_false] at h
        simp only [Option.some.injEq, Prod.mk.injEq] at h
        obtain ⟨hc, -⟩ := h
        subst hc
        simpa using ha
  · intro pre cap rest hpre hcap
    simp [get_next_image, getNextImageLoop_scripted pre cap rest hpre hcap]

/-- Witness for the frame-pump theorem: two incomplete captures, then a
complete one with timestamp 99. -/
theorem frame_pump_witness :
    get_next_image ([⟨true, 7⟩, ⟨true, 8⟩] ++ (⟨false, 99⟩ : Capture) :: []) =
      some ((⟨false, 99⟩ : Capture).timestamp, 3, 3) :=
  frame_pump_skips_incomplete_and_releases.2 [⟨true, 7⟩, ⟨true, 8⟩] ⟨false, 99⟩ []
    (by decide) rfl

/-- C4: from a fresh timestamp baseline, capture times [100, 250, 400]
produce exactly the buffer (presentation-time, duration) pairs
(0, 0), (150, 150), (300, 150). -/
theorem fill_timestamp_pairs :
    fillRun (pySpinSrcInit emptyAcquirer) [100, 250, 400] =
      [(0, 0), (150, 150), (300, 150)] := by
  decide

/-- C10 failing case: `do_set_property` stores `wb-blue-ratio`, but
`do_get_property` has no branch for it and raises the unknown-property
`AttributeError`, although `__gproperties__` declares the property
READWRITE — the set/get round trip fails for this one name. -/
theorem wb_blue_ratio_roundtrip_fails :
    do_set_property (pySpinSrcInit emptyAcquirer) "wb-blue-ratio" (.pyFloat 2) =
      .ok { pySpinSrcInit emptyAcquirer with wb_blue := 2 } ∧
    do_get_property { pySpinSrcInit emptyAcquirer with wb_blue := 2 } "wb-blue-ratio" =
      .error (.attributeError "unknown property wb-blue-ratio") := by
  constructor
  · decide
  · decide

/-- Helper: a fill call leaves the timestamp offset untouched whenever it is
already nonzero. -/
theorem fill_preserves_nonzero_offset (s : PySpinSrc) (ts : Int)
    (h : s.timestamp_offset ≠ 0) :
    ((do_gst_push_src_fill s [completeCapture ts]).1).timestamp_offset =
      s.timestamp_offset := by
  simp [do_gst_push_src_fill, get_next_image, getNextImageLoop, completeCapture, h]

/-- Helper: once the offset is nonzero, every state of a fill run keeps it. -/
theorem fillStates_offset_const (l : List Int) :
    ∀ (s : PySpinSrc), s.timestamp_offset ≠ 0 →
      ∀ x ∈ fillStates s l, x.timestamp_offset = s.timestamp_offset := by
  induction l with
  | nil => intro s _ x hx; simp [fillStates] at hx
  | cons ts rest ih =>
    intro s h x hx
    simp only [fillStates, List.mem_cons] at hx
    have h1 := fill_preserves_nonzero_offset s ts h
    rcases hx with hx | hx
    · rw [hx, h1]
    · have h2 := ih _ (by rw [h1]; exact h) x hx
      rw [h2, h1]

/-- C5 fails as stated: when the first device capture time is exactly zero,
the equals-zero guard fires again on the second frame and the offset is
reassigned (from 0 to 5) on a later frame of the same session. -/
theorem offset_reassigned_when_first_capture_zero :
    ((fillStates (pySpinSrcInit emptyAcquirer) [0, 5]).map PySpinSrc.timestamp_offset) =
      [0, 5] := by
  decide

/-- C5 amended: provided the first capture time of the session is nonzero,
the offset is assigned on the first frame and every state of the session
keeps that value — it is never reassigned on a later frame. -/
theorem offset_set_once_when_first_capture_nonzero (t : Int) (rest : List Int)
    (ht : t ≠ 0) :
    (fillStates (pySpinSrcInit emptyAcquirer) (t :: rest)).all
      (fun st => st.timestamp_offset == t) = true := by
  have h0 : ((do_gst_push_src_fill (pySpinSrcInit emptyAcquirer)
      [completeCapture t]).1).timestamp_offset = t := by
    simp [do_gst_push_src_fill, get_next_image, getNextImageLoop, completeCapture,
      pySpinSrcInit]
  rw [List.all_eq_true]
  intro x hx
  simp only [beq_iff_eq]
  simp only [fillStates, List.mem_cons] at hx
  rcases hx with hx | hx
  · rw [hx, h0]
  · have h2 := fillStates_offset_const rest _ (by rw [h0]; exact ht) x hx
    rw [h2, h0]

/-- Witness for the amended offset theorem at capture times [100, 250, 400]. -/
theorem offset_set_once_witness :
    (fillStates (pySpinSrcInit emptyAcquirer) [100, 250, 400]).all
      (fun st => st.timestamp_offset == 100) = true :=
  offset_set_once_when_first_capture_nonzero 100 [250, 400] (by decide)

/-- C6: node-name resolution tries device scope, then transport-layer-device
scope, then transport-layer-stream scope, first match winning: a name
present in both the device and transport-layer-device scopes is served from
the device scope by both `get` and `set`; a name absent from all three
scopes makes `get`/`set`/`execute`/`range`/`entries` all raise the
not-found `ValueError`. -/
theorem node_lookup_precedence_and_not_found :
    (∀ (ia : ImageAcquirer) (d : Device) (node_name : String) (n1 n2 : Node) (value : PyVal),
        ia.currentDevice = some d → d.valid = true → d.initialized = true →
        List.lookup node_name ia.deviceNodes = some n1 →
        List.lookup node_name ia.tlDeviceNodes = some n2 →
        get_node_val ia node_name = getNodeDispatch n1 node_name ∧
        set_node_val ia node_name value =
          (setNodeDispatch n1 node_name value).map
            (writeNodeBack ia Scope.deviceScope node_name)) ∧
    (∀ (ia : ImageAcquirer) (d : Device) (node_name : String) (value : PyVal),
        ia.currentDevice = some d → d.valid = true → d.initialized = true →
        List.lookup node_name ia.deviceNodes = none →
        List.lookup node_name ia.tlDeviceNodes = none →
        List.lookup node_name ia.tlStreamNodes = none →
        get_node_val ia node_name = .error (.valueError s!"{node_name} node is not available") ∧
        set_node_val ia node_name value =
          .error (.valueError s!"{node_name} node is not available") ∧
        execute_node ia node_name = .error (.valueError s!"{node_name} node is not available") ∧
        get_node_range ia node_name =
          .error (.valueError s!"{node_name} node is not available") ∧
        get_node_entries ia node_name =
          .error (.valueError s!"{node_name} node is not available")) := by
  constructor
  · intro ia d node_name n1 n2 value hc hv hi h1 h2
    constructor
    · simp [get_node_val, _get_node, _get_node_scoped, _get_device_node_map, hc, hv, hi, h1]
    · simp [set_node_val, _get_node_scoped, _get_device_node_map, hc, hv, hi, h1]
  · intro ia d node_name value hc hv hi h1 h2 h3
    refine ⟨?_, ?_, ?_, ?_, ?_⟩ <;>
      simp [get_node_val, set_node_val, execute_node, get_node_range, get_node_entries,
        _get_node, _get_node_scoped, _get_device_node_map, _get_tl_device_node_map,
        _get_tl_stream_node_map, hc, hv, hi, h1, h2, h3]

/-- Witness for the lookup theorem: `Gain` present in two scopes is served
from the device scope; `Missing` is absent everywhere and every accessor
reports it not available. -/
theorem node_lookup_witness :
    (get_node_val exScopesIa "Gain" = getNodeDispatch (Node.floatN exGainDevNode) "Gain" ∧
     set_node_val exScopesIa "Gain" (.pyFloat 3) =
       (setNodeDispatch (Node.floatN exGainDevNode) "Gain" (.pyFloat 3)).map
         (writeNodeBack exScopesIa Scope.deviceScope "Gain")) ∧
    (get_node_val exScopesIa "Missing" =
       .error (.valueError "Missing node is not available") ∧
     set_node_val exScopesIa "Missing" (.pyFloat 3) =
       .error (.valueError "Missing node is not available") ∧
     execute_node exScopesIa "Missing" =
       .error (.valueError "Missing node is not available") ∧
     get_node_range exScopesIa "Missing" =
       .error (.valueError "Missing node is not available") ∧
     get_node_entries exScopesIa "Missing" =
       .error (.valueError "Missing node is not available")) := by
  exact ⟨node_lookup_precedence_and_not_found.1 exScopesIa okDevice "Gain"
      (Node.floatN exGainDevNode) (Node.floatN exGainTlNode) (.pyFloat 3)
      rfl rfl rfl (by decide) (by decide),
    node_lookup_precedence_and_not_found.2 exScopesIa okDevice "Missing" (.pyFloat 3)
      rfl rfl rfl (by decide) (by decide) (by decide)⟩

/-- C8 fails as stated: when stopping acquisition raises during teardown,
the exception escapes `_reset_cam` and `__del__` never reaches
`device_list.Clear()` or `system.ReleaseInstance()` — there is no
continue-on-error handling in the teardown path. -/
theorem teardown_skips_release_on_failing_stop :
    (delImageAcquirer exTeardownBrokenIa).listCleared = false ∧
    (delImageAcquirer exTeardownBrokenIa).systemReleased = false ∧
    (delImageAcquirer exTeardownBrokenIa).raised ≠ none := by
  decide

/-- C8 amended: the device list is cleared and the SDK instance released
whenever the reset steps complete without raising (in particular whenever
the scripted stop/deinit calls of the selected handle do not fail); a
raising step skips both releases. -/
theorem system_release_when_reset_clean (ia : ImageAcquirer)
    (h : ∀ d, ia.currentDevice = some d → d.valid = true →
        (d.streaming = true → d.endAcqRaises = false) ∧
        (d.initialized = true → d.deinitRaises = false)) :
    (delImageAcquirer ia).listCleared = true ∧
    (delImageAcquirer ia).systemReleased = true := by
  cases hc : ia.currentDevice with
  | none => simp [delImageAcquirer, _reset_cam, hc]
  | some d =>
    cases hv : d.valid with
    | false => simp [delImageAcquirer, _reset_cam, hc, hv]
    | true =>
      obtain ⟨h1, h2⟩ := h d hc hv
      cases hs : d.streaming with
      | true =>
        have he : d.endAcqRaises = false := h1 hs
        cases hi : d.initialized with
        | true =>
          have hdi : d.deinitRaises = false := h2 hi
          simp [delImageAcquirer, _reset_cam, hc, hv, hs, hi, he, hdi,
            deviceEndAcquisition, deviceDeInit, Except.map]
        | false =>
          simp [delImageAcquirer, _reset_cam, hc, hv, hs, hi, he,
            deviceEndAcquisition, Except.map]
      | false =>
        cases hi : d.initialized with
        | true =>
          have hdi : d.deinitRaises = false := h2 hi
          simp [delImageAcquirer, _reset_cam, hc, hv, hs, hi, hdi, deviceDeInit, Except.map]
        | false =>
          simp [delImageAcquirer, _reset_cam, hc, hv, hs, hi]

/-- Witness for the teardown theorem on a well-behaved streaming handle. -/
theorem system_release_witness :
    (delImageAcquirer exTeardownOkIa).listCleared = true ∧
    (delImageAcquirer exTeardownOkIa).systemReleased = true :=
  system_release_when_reset_clean exTeardownOkIa (by
    intro d hd hv
    rw [show exTeardownOkIa.currentDevice = some exStreamingDevice from rfl] at hd
    injection hd with hde
    subst hde
    exact ⟨fun _ => rfl, fun _ => rfl⟩)

/-- Helper: resetting a valid handle that is streaming and initialized (with
well-behaved SDK calls) stops it, deinitializes it and clears the caches. -/
theorem reset_cam_streaming_initialized (ia : ImageAcquirer) (d : Device)
    (hc : ia.currentDevice = some d) (hv : d.valid = true) (hs : d.streaming = true)
    (hi : d.initialized = true) (he : d.endAcqRaises = false) (hdi : d.deinitRaises = false) :
    _reset_cam ia =
      .ok ({ ia with deviceNodes := [], tlDeviceNodes := [], tlStreamNodes := [], currentDevice := none },
        [ResetAction.endAcq, ResetAction.deInit]) := by
  simp [_reset_cam, hc, hv, hs, hi, he, hdi, deviceEndAcquisition, deviceDeInit, Except.map]

/-- Helper: resetting a handle that is neither streaming nor initialized
performs no SDK teardown call. -/
theorem reset_cam_idle (ia : ImageAcquirer) (d : Device)
    (hc : ia.currentDevice = some d) (hs : d.streaming = false) (hi : d.initialized = false) :
    _reset_cam ia =
      .ok ({ ia with deviceNodes := [], tlDeviceNodes := [], tlStreamNodes := [], currentDevice := none },
        []) := by
  cases hv : d.valid with
  | true => simp [_reset_cam, hc, hv, hs, hi]
  | false => simp [_reset_cam, hc, hv]

/-- Helper: resetting with no selected device performs no teardown call. -/
theorem reset_cam_none (ia : ImageAcquirer) (hc : ia.currentDevice = none) :
    _reset_cam ia =
      .ok ({ ia with deviceNodes := [], tlDeviceNodes := [], tlStreamNodes := [], currentDevice := none },
        []) := by
  simp [_reset_cam, hc]

/-- Helper: `init_device` reports exactly the reset actions of the
successful `_reset_cam` call, on every outcome of candidate selection. -/
theorem init_device_acts (ia : ImageAcquirer) (ser : Option String) (idx : Option Nat)
    (ia0 : ImageAcquirer) (acts : List ResetAction)
    (h : _reset_cam ia = .ok (ia0, acts)) : (init_device ia ser idx).2 = acts := by
  unfold init_device
  rw [h]
  dsimp only
  split <;> rfl

/-- Helper: the defensive post-`Init` `end_acquisition` (with its error
absorbed) changes neither the serial nor the initialized flag. -/
theorem endAbsorb_fields (d : Device) :
    (match deviceEndAcquisition d with | .ok x => x | .error _ => d).serial = d.serial ∧
    (match deviceEndAcquisition d with | .ok x => x | .error _ => d).initialized =
      d.initialized := by
  unfold deviceEndAcquisition
  split_ifs <;> simp

/-- C9: session open always force-closes the prior handle first (stopping
acquisition and deinitializing exactly when streaming/initialized, so close
is idempotent); the serial-derived candidate is tried before the
index-derived one and the first valid candidate is selected and initialized
— a valid serial-derived candidate wins, and when the serial candidate is
absent or invalid, a valid in-range index-derived candidate is the one
selected; open fails with the no-device-available error exactly when no
candidate is valid. -/
theorem init_device_reset_candidates_failure :
    (∀ (ia : ImageAcquirer) (d : Device) (ser : Option String) (idx : Option Nat),
        ia.currentDevice = some d → d.valid = true → d.streaming = true →
        d.initialized = true → d.endAcqRaises = false → d.deinitRaises = false →
        (init_device ia ser idx).2 = [ResetAction.endAcq, ResetAction.deInit]) ∧
    (∀ (ia : ImageAcquirer) (d : Device) (ser : Option String) (idx : Option Nat),
        ia.currentDevice = some d → d.streaming = false → d.initialized = false →
        (init_device ia ser idx).2 = []) ∧
    (∀ (ia : ImageAcquirer) (s : String) (idx : Option Nat),
        ia.currentDevice = none → (getBySerial ia.deviceList s).valid = true →
        ∃ ia1 d1, (init_device ia (some s) idx).1 = .ok ia1 ∧
          ia1.currentDevice = some d1 ∧
          d1.serial = (getBySerial ia.deviceList s).serial ∧
          d1.initialized = true) ∧
    (∀ (ia : ImageAcquirer) (ser : Option String) (i : Nat),
        ia.currentDevice = none →
        (∀ s, ser = some s → (getBySerial ia.deviceList s).valid = false) →
        i < ia.deviceList.length →
        (getByIndex ia.deviceList i).valid = true →
        ∃ ia1 d1, (init_device ia ser (some i)).1 = .ok ia1 ∧
          ia1.currentDevice = some d1 ∧
          d1.serial = (getByIndex ia.deviceList i).serial ∧
          d1.initialized = true) ∧
    (∀ (ia : ImageAcquirer) (ser : Option String) (idx : Option Nat),
        ia.currentDevice = none →
        ((∃ e, (init_device ia ser idx).1 = .error e) ↔
          (¬ (∃ s, ser = some s ∧ (getBySerial ia.deviceList s).valid = true) ∧
           ¬ (∃ i, idx = some i ∧ i < ia.deviceList.length ∧
                (getByIndex ia.deviceList i).valid = true)))) := by
  refine ⟨?_, ?_, ?_, ?_, ?_⟩
  · intro ia d ser idx hc hv hs hi he hdi
    exact init_device_acts ia ser idx _ _ (reset_cam_streaming_initialized ia d hc hv hs hi he hdi)
  · intro ia d ser idx hc hs hi
    exact init_device_acts ia ser idx _ _ (reset_cam_idle ia d hc hs hi)
  · intro ia s idx hc hval
    have hr := reset_cam_none ia hc
    unfold init_device
    rw [hr]
    have hfind : List.find? (fun dev => dev.valid)
        ((getBySerial ia.deviceList s) ::
          (match idx with
           | some i => if i < ia.deviceList.length then [getByIndex ia.deviceList i] else []
           | none => [])) = some (getBySerial ia.deviceList s) :=
      List.find?_cons_of_pos _ hval
    dsimp only
    simp only [List.cons_append, List.nil_append]
    rw [hfind]
    exact ⟨_, _, rfl, rfl,
      (endAbsorb_fields { getBySerial ia.deviceList s with initialized := true }).1,
      (endAbsorb_fields { getBySerial ia.deviceList s with initialized := true }).2⟩
  · intro ia ser i hc hser hlen hgv
    have hr := reset_cam_none ia hc
    rcases ser with _ | s
    · unfold init_device
      rw [hr]
      dsimp only
      rw [if_pos hlen]
      simp only [List.nil_append]
      rw [List.find?_cons_of_pos _ hgv]
      exact ⟨_, _, rfl, rfl,
        (endAbsorb_fields { getByIndex ia.deviceList i with initialized := true }).1,
        (endAbsorb_fields { getByIndex ia.deviceList i with initialized := true }).2⟩
    · have hsv : (getBySerial ia.deviceList s).valid = false := hser s rfl
      unfold init_device
      rw [hr]
      dsimp only
      rw [if_pos hlen]
      simp only [List.cons_append, List.nil_append]
      rw [List.find?_cons_of_neg _ (by simp [hsv]), List.find?_cons_of_pos _ hgv]
      exact ⟨_, _, rfl, rfl,
        (endAbsorb_fields { getByIndex ia.deviceList i with initialized := true }).1,
        (endAbsorb_fields { getByIndex ia.deviceList i with initialized := true }).2⟩
  · intro ia ser idx hc
    have hr := reset_cam_none ia hc
    rcases ser with _ | s <;> rcases idx with _ | i
    · simp [init_device, hr, List.find?]
    · by_cases hlen : i < ia.deviceList.length
      · cases hgv : (getByIndex ia.deviceList i).valid with
        | true => simp [init_device, hr, List.find?, hlen, hgv]
        | false => simp [init_device, hr, List.find?, hlen, hgv]
      · simp [init_device, hr, List.find?, hlen]
    · cases hsv : (getBySerial ia.deviceList s).valid with
      | true => simp [init_device, hr, List.find?, hsv]
      | false => simp [init_device, hr, List.find?, hsv]
    · cases hsv : (getBySerial ia.deviceList s).valid with
      | true => simp [init_device, hr, List.find?, hsv]
      | false =>
        by_cases hlen : i < ia.deviceList.length
        · cases hgv : (getByIndex ia.deviceList i).valid with
          | true => simp [init_device, hr, List.find?, hsv, hlen, hgv]
          | false => simp [init_device, hr, List.find?, hsv, hlen, hgv]
        · simp [init_device, hr, List.find?, hsv, hlen]

/-- Witness for the session-open theorem on concrete states: a streaming
prior handle is stopped and deinitialized, an idle prior handle triggers no
teardown call, opening by serial "B" selects that camera, opening with no
serial and index 1 selects the index-derived camera, and opening with
neither serial nor index fails. -/
theorem init_device_witness :
    (init_device exReopenIa (some "A") none).2 =
      [ResetAction.endAcq, ResetAction.deInit] ∧
    (init_device { exOpenListIa with currentDevice := some exIdleDevice }
      (some "A") none).2 = [] ∧
    (∃ ia1 d1, (init_device exOpenListIa (some "B") (some 0)).1 = .ok ia1 ∧
        ia1.currentDevice = some d1 ∧
        d1.serial = (getBySerial exOpenListIa.deviceList "B").serial ∧
        d1.initialized = true) ∧
    (∃ ia1 d1, (init_device exOpenListIa none (some 1)).1 = .ok ia1 ∧
        ia1.currentDevice = some d1 ∧
        d1.serial = (getByIndex exOpenListIa.deviceList 1).serial ∧
        d1.initialized = true) ∧
    ((∃ e, (init_device exOpenListIa none none).1 = .error e) ↔
      (¬ (∃ s, (none : Option String) = some s ∧
            (getBySerial exOpenListIa.deviceList s).valid = true) ∧
       ¬ (∃ i, (none : Option Nat) = some i ∧ i < exOpenListIa.deviceList.length ∧
            (getByIndex exOpenListIa.deviceList i).valid = true))) :=
  ⟨init_device_reset_candidates_failure.1 exReopenIa exStreamingDevice (some "A") none
      rfl rfl rfl rfl rfl rfl,
   init_device_reset_candidates_failure.2.1 _ exIdleDevice (some "A") none rfl rfl rfl,
   init_device_reset_candidates_failure.2.2.1 exOpenListIa "B" (some 0) rfl (by decide),
   init_device_reset_candidates_failure.2.2.2.1 exOpenListIa none 1 rfl
     (fun s h => Option.noConfusion h) (by decide) (by decide),
   init_device_reset_candidates_failure.2.2.2.2 exOpenListIa none none rfl⟩

/-- C7 fails as stated: with the `PixelFormat`, ROI and frame-rate nodes all
missing (their writes fail), caps application still reports success and
`start_streaming` succeeds, because `set_cam_node_val` logs and swallows the
`ValueError` of every mandatory node write; only the acquisition-start step
can abort startup. -/
theorem mandatory_caps_failure_does_not_abort :
    List.lookup "PixelFormat" exStartSrc.image_acquirer.deviceNodes = none ∧
    (apply_caps_to_cam exStartSrc).2 = .ok true ∧
    (start_streaming exStartSrc).2 = .ok true := by
  refine ⟨by decide, by decide, by decide⟩

/-- Helper: with empty node maps (and a valid initialized device) every
`set_cam_node_val` raises the not-found `ValueError`, which the helper
swallows, leaving the acquirer unchanged. -/
theorem camSet_noop_on_empty (ia : ImageAcquirer) (d : Device) (node_name : String)
    (value : PyVal) (hdn : ia.deviceNodes = []) (htd : ia.tlDeviceNodes = [])
    (hts : ia.tlStreamNodes = []) (hc : ia.currentDevice = some d)
    (hv : d.valid = true) (hi : d.initialized = true) :
    camSet node_name value ia = (ia, none) := by
  simp [camSet, set_cam_node_val, set_node_val, _get_node_scoped, _get_device_node_map,
    _get_tl_device_node_map, _get_tl_stream_node_map, hdn, htd, hts, hc, hv, hi,
    caught_by_helpers, List.lookup]

/-- Helper: `execute_cam_node` never changes the modelled acquirer state. -/
theorem camExec_noop (node_name : String) (ia : ImageAcquirer) :
    camExec node_name ia = (ia, none) := by
  unfold camExec
  cases execute_node ia node_name <;> rfl

/-- C7 amended: during session setup, failures of the optional parameter
writes (exposure, gain, white balance, binning) are logged and skipped, and
failures of the "mandatory" caps node writes (pixel format, ROI, frame
rate) are logged and skipped just the same — `apply_properties_to_cam` and
`apply_caps_to_cam` both report success even when every involved camera
node is missing; startup aborts only when the acquisition-start step fails
(here: the `AcquisitionMode` write, making `start_streaming` return false). -/
theorem setup_failures_skipped_only_acq_start_aborts (s : PySpinSrc) (d : Device)
    (fmt : PixelFormatType)
    (hdn : s.image_acquirer.deviceNodes = [])
    (htd : s.image_acquirer.tlDeviceNodes = [])
    (hts : s.image_acquirer.tlStreamNodes = [])
    (hc : s.image_acquirer.currentDevice = some d)
    (hv : d.valid = true) (hi : d.initialized = true)
    (hfmt : get_format_from_gst s.info_format = some fmt)
    (hfps : s.info_fps_d ≠ 0) :
    (apply_properties_to_cam s).2 = true ∧
    (apply_caps_to_cam s).2 = .ok true ∧
    (start_streaming s).2 = .ok false := by
  have hset : ∀ (n : String) (v : PyVal), camSet n v s.image_acquirer = (s.image_acquirer, none) :=
    fun n v => camSet_noop_on_empty s.image_acquirer d n v hdn htd hts hc hv hi
  have hprops : apply_properties_to_cam s = (s, true) := by
    simp only [apply_properties_to_cam, camAll, List.foldr, camSeq, camPure, camIf,
      camWhenAvailable, camExec_noop, hset, ite_self]
  have hcaps : apply_caps_to_cam s = (s, .ok true) := by
    simp only [apply_caps_to_cam, hfmt, camAll, List.foldr, camSeq, camPure,
      camExec_noop, hset, ite_self, hfps, if_neg, if_false]
  have hsa : start_acquisition s.image_acquirer =
      .error (.valueError "AcquisitionMode node is not available") := by
    simp [start_acquisition, set_node_val, _get_node_scoped, _get_device_node_map,
      _get_tl_device_node_map, _get_tl_stream_node_map, hdn, htd, hts, hc, hv, hi,
      List.lookup]
    decide
  have hstart : (start_streaming s).2 = .ok false := by
    unfold start_streaming
    rw [hcaps]
    dsimp only
    rw [hsa]
  exact ⟨by rw [hprops], by rw [hcaps], hstart⟩

/-- Witness for the amended setup theorem on a device with empty node maps. -/
theorem setup_failures_witness :
    (apply_properties_to_cam exEmptyMapsSrc).2 = true ∧
    (apply_caps_to_cam exEmptyMapsSrc).2 = .ok true ∧
    (start_streaming exEmptyMapsSrc).2 = .ok false :=
  setup_failures_skipped_only_acq_start_aborts exEmptyMapsSrc okDevice
    { cap_type := RAW_CAP_TYPE, gst := "GRAY8", genicam := "Mono8" }
    rfl rfl rfl rfl rfl rfl (by decide) (by decide)

/-- C1 fails as stated: on a device where the range queries of the first
probed format fail (`Width` missing), `get_camera_caps` raises the
`TypeError` from `Gst.IntRange(range(None, None))` before ever reaching the
restore statement, leaving the device on the probed format `Mono8` instead
of the pre-probe `RGB8` — the restore is not unconditional. -/
theorem probe_failure_leaves_pixel_format_changed :
    currentPixelFormat exProbeBrokenIa = some "RGB8" ∧
    (get_camera_caps exProbeBrokenIa).2 =
      .error (.typeError "NoneType object cannot be interpreted as an integer") ∧
    currentPixelFormat (get_camera_caps exProbeBrokenIa).1 = some "Mono8" := by
  refine ⟨by decide, by decide, by decide⟩

/-- Helper: replacing a node by name in a map changes exactly the binding of
that name. -/
theorem lookup_setNodeInMap (m : List (String × Node)) (name : String) (n : Node) :
    List.lookup name (setNodeInMap m name n) = (List.lookup name m).map (fun _ => n) := by
  induction m with
  | nil => rfl
  | cons p rest ih =>
    obtain ⟨k, v⟩ := p
    by_cases h : k = name
    · subst h
      have hcond : (k == k) = true := beq_self_eq_true k
      show List.lookup k
          ((if (k == k) = true then (k, n) else (k, v)) :: setNodeInMap rest k n) =
        (List.lookup k ((k, v) :: rest)).map (fun _ => n)
      rw [if_pos hcond]
      show (match k == k with
            | true => some n
            | false => List.lookup k (setNodeInMap rest k n)) =
        (match k == k with
         | true => some v
         | false => List.lookup k rest).map (fun _ => n)
      rw [hcond]
      rfl
    · have h1 : (k == name) = false := beq_eq_false_iff_ne.mpr h
      have h2 : (name == k) = false := beq_eq_false_iff_ne.mpr (fun hh => h hh.symm)
      show List.lookup name
          ((if (k == name) = true then (k, n) else (k, v)) :: setNodeInMap rest name n) =
        (List.lookup name ((k, v) :: rest)).map (fun _ => n)
      rw [if_neg (by simp [h1])]
      show (match name == k with
            | true => some v
            | false => List.lookup name (setNodeInMap rest name n)) =
        (match name == k with
         | true => some v
         | false => List.lookup name rest).map (fun _ => n)
      rw [h2]
      exact ih

/-- Helper: `_set_enum_node_val` either fails with a `ValueError` or
succeeds having changed only the current entry of the node. -/
theorem set_enum_result (e : EnumNode) (v : PyVal) :
    (∃ msg, _set_enum_node_val e v = .error (.valueError msg)) ∨
    (∃ en : EnumEntry, _set_enum_node_val e v = .ok { e with current := en.symbolic }) := by
  by_cases hg : (!e.available || !e.writable) = true
  · left
    exact ⟨s!"Enumeration node {e.displayName} is not writable",
      by simp [_set_enum_node_val, hg]⟩
  · cases hf : e.entries.find? (fun en => en.symbolic == pyToString v) with
    | none =>
      left
      exact ⟨s!"Entry {pyToString v} for enumeration node {e.displayName} is not available",
        by simp [_set_enum_node_val, hg, hf]⟩
    | some en =>
      by_cases hfl : (!en.entryAvailable || !en.entryReadable) = true
      · left
        exact ⟨s!"Entry {pyToString v} for enumeration node {e.displayName} is not available",
          by simp [_set_enum_node_val, hg, hf, hfl]⟩
      · right
        exact ⟨en, by simp [_set_enum_node_val, hg, hf, hfl]⟩

/-- Helper: every failure of `_set_enum_node_val` is a `ValueError`, hence
caught by the element helpers. -/
theorem set_enum_err_caught (e : EnumNode) (v : PyVal) (err : PyErr)
    (h : _set_enum_node_val e v = .error err) : caught_by_helpers err = true := by
  rcases set_enum_result e v with ⟨msg, hm⟩ | ⟨en, hm⟩
  · rw [hm] at h
    injection h with h1
    subst h1
    rfl
  · rw [hm] at h
    simp at h

/-- Helper: a successful `_set_enum_node_val` changes only the current
entry of the node. -/
theorem set_enum_ok_fields (e : EnumNode) (v : PyVal) (e1 : EnumNode)
    (h : _set_enum_node_val e v = .ok e1) :
    e1.available = e.available ∧ e1.readable = e.readable ∧
    e1.writable = e.writable ∧ e1.entries = e.entries := by
  rcases set_enum_result e v with ⟨msg, hm⟩ | ⟨en, hm⟩
  · rw [hm] at h
    simp at h
  · rw [hm] at h
    injection h with h1
    subst h1
    exact ⟨rfl, rfl, rfl, rfl⟩

/-- Helper: on a state whose device-scope map holds the `PixelFormat`
enumeration node, `set_cam_node_val "PixelFormat"` never lets an exception
escape and preserves the node identity apart from its current entry. -/
theorem set_pixelformat_preserves_node (ia : ImageAcquirer) (d : Device) (e : EnumNode)
    (v : PyVal) (hc : ia.currentDevice = some d) (hv : d.valid = true)
    (hi : d.initialized = true)
    (hl : List.lookup "PixelFormat" ia.deviceNodes = some (.enumN e)) :
    ∃ (ia1 : ImageAcquirer) (e1 : EnumNode),
      set_cam_node_val ia "PixelFormat" v = (ia1, none) ∧
      ia1.currentDevice = ia.currentDevice ∧
      List.lookup "PixelFormat" ia1.deviceNodes = some (.enumN e1) ∧
      e1.available = e.available ∧ e1.readable = e.readable ∧
      e1.writable = e.writable ∧ e1.entries = e.entries := by
  have hres : _get_node_scoped ia "PixelFormat" = .ok (some (Scope.deviceScope, .enumN e)) := by
    simp [_get_node_scoped, _get_device_node_map, hc, hv, hi, hl]
  have hsetnode : set_node_val ia "PixelFormat" v =
      (setNodeDispatch (.enumN e) "PixelFormat" v).map
        (writeNodeBack ia Scope.deviceScope "PixelFormat") := by
    unfold set_node_val
    rw [hres]
  cases hw : _set_enum_node_val e v with
  | error err =>
    have hcaught := set_enum_err_caught e v err hw
    refine ⟨ia, e, ?_, rfl, hl, rfl, rfl, rfl, rfl⟩
    unfold set_cam_node_val
    rw [hsetnode]
    dsimp only [setNodeDispatch]
    rw [hw]
    simp [Except.map, hcaught]
  | ok e1 =>
    obtain ⟨f1, f2, f3, f4⟩ := set_enum_ok_fields e v e1 hw
    refine ⟨writeNodeBack ia Scope.deviceScope "PixelFormat" (.enumN e1), e1, ?_, rfl, ?_,
      f1, f2, f3, f4⟩
    · unfold set_cam_node_val
      rw [hsetnode]
      dsimp only [setNodeDispatch]
      rw [hw]
      simp [Except.map]
    · dsimp only [writeNodeBack]
      rw [lookup_setNodeInMap, hl]
      rfl

/-- Helper: the probing loop of `get_camera_caps` keeps the selected device
and keeps the `PixelFormat` node in place, with all its fields except the
current entry unchanged, no matter whether it finishes or escapes with the
`TypeError`. -/
theorem caps_loop_preserves_pixelformat (d : Device) (hv : d.valid = true)
    (hi : d.initialized = true) (formats : List PixelFormatType) :
    ∀ (ia : ImageAcquirer) (acc : List CapsEntry) (e : EnumNode),
      ia.currentDevice = some d →
      List.lookup "PixelFormat" ia.deviceNodes = some (.enumN e) →
      e.available = true → e.readable = true → e.writable = true →
      ∃ e1 : EnumNode,
        (get_camera_caps_loop ia formats acc).1.currentDevice = some d ∧
        List.lookup "PixelFormat" (get_camera_caps_loop ia formats acc).1.deviceNodes =
          some (.enumN e1) ∧
        e1.available = true ∧ e1.readable = true ∧ e1.writable = true ∧
        e1.entries = e.entries := by
  induction formats with
  | nil =>
    intro ia acc e hc hl ha hr hw
    exact ⟨e, by simp [get_camera_caps_loop, hc], by simp [get_camera_caps_loop, hl],
      ha, hr, hw, rfl⟩
  | cons pf rest ih =>
    intro ia acc e hc hl ha hr hw
    obtain ⟨ia1, e1, hstep, hcd, hl1, f1, f2, f3, f4⟩ :=
      set_pixelformat_preserves_node ia d e (.pyStr pf.genicam) hc hv hi hl
    have hc1 : ia1.currentDevice = some d := by rw [hcd, hc]
    unfold get_camera_caps_loop
    rw [hstep]
    dsimp only
    split
    · obtain ⟨e2, g1, g2, g3, g4, g5, g6⟩ :=
        ih ia1 (acc ++ [_]) e1 hc1 hl1 (f1.trans ha) (f2.trans hr) (f3.trans hw)
      exact ⟨e2, g1, g2, g3, g4, g5, g6.trans f4⟩
    · exact ⟨e1, hc1, hl1, f1.trans ha, f2.trans hr, f3.trans hw, f4⟩

/-- C1 amended: whenever capability probing returns without an escaped
exception (all probed formats' range queries succeeded, so the restore
statement is reached) and the `PixelFormat` node is writable with its
original entry available, the device is back on its pre-probe pixel format;
the counterexample shows the restore is skipped when a range query fails
midway. -/
theorem probe_restores_pixel_format_on_success (ia : ImageAcquirer) (d : Device)
    (e : EnumNode) (en0 : EnumEntry)
    (hc : ia.currentDevice = some d) (hv : d.valid = true) (hi : d.initialized = true)
    (hl : List.lookup "PixelFormat" ia.deviceNodes = some (.enumN e))
    (ha : e.available = true) (hr : e.readable = true) (hw : e.writable = true)
    (hfind : e.entries.find? (fun en => en.symbolic == e.current) = some en0)
    (hea : en0.entryAvailable = true) (her : en0.entryReadable = true) :
    ∀ caps, (get_camera_caps ia).2 = .ok caps →
      currentPixelFormat (get_camera_caps ia).1 = some e.current := by
  intro caps hcaps
  have hstart : get_cam_node_val ia "PixelFormat" = some (.pyStr e.current) := by
    simp [get_cam_node_val, get_node_val, _get_node, _get_node_scoped, _get_device_node_map,
      hc, hv, hi, hl, getNodeDispatch, _get_enum_node_val, ha, hr, Except.map]
  obtain ⟨e1, g1, g2, g3, g4, g5, g6⟩ :=
    caps_loop_preserves_pixelformat d hv hi
      ((get_cam_node_entries ia "PixelFormat").map get_format_from_genicam).reduceOption
      ia [] e hc hl ha hr hw
  simp only [get_camera_caps] at hcaps ⊢
  rw [hstart] at hcaps ⊢
  cases hloop : get_camera_caps_loop ia
      ((get_cam_node_entries ia "PixelFormat").map get_format_from_genicam).reduceOption
      [] with
  | mk ia1 res =>
    rw [hloop] at hcaps g1 g2
    cases res with
    | error err => simp at hcaps
    | ok caps1 =>
      dsimp only at hcaps g1 g2 ⊢
      have hsym : en0.symbolic = e.current := by
        have := List.find?_some hfind
        simpa [beq_iff_eq] using this
      have hsete : _set_enum_node_val e1 (.pyStr e.current) =
          .ok { e1 with current := en0.symbolic } := by
        unfold _set_enum_node_val
        rw [g6]
        simp [g3, g5, pyToString, hfind, hea, her]
      have hres1 : _get_node_scoped ia1 "PixelFormat" =
          .ok (some (Scope.deviceScope, .enumN e1)) := by
        simp [_get_node_scoped, _get_device_node_map, g1, hv, hi, g2]
      have hset2 : set_cam_node_val ia1 "PixelFormat" (optValToPy (some (.pyStr e.current))) =
          (writeNodeBack ia1 Scope.deviceScope "PixelFormat"
            (.enumN { e1 with current := en0.symbolic }), none) := by
        unfold set_cam_node_val set_node_val
        rw [hres1]
        dsimp only [setNodeDispatch, optValToPy]
        rw [hsete]
        simp [Except.map]
      rw [hset2]
      dsimp only [currentPixelFormat, writeNodeBack]
      rw [lookup_setNodeInMap, g2]
      simp [hsym]

/-- Witness for the restore theorem on a device where probing succeeds. -/
theorem probe_restore_witness :
    currentPixelFormat (get_camera_caps exProbeGoodIa).1 = some exPixelFormatMono.current :=
  probe_restores_pixel_format_on_success exProbeGoodIa okDevice exPixelFormatMono mono8Entry
    rfl rfl rfl (by decide) rfl rfl rfl (by decide) rfl rfl
    [{ cap_type := "video/x-raw", format := "GRAY8", width_min := 4, width_max := 1920,
       height_min := 4, height_max := 1080, framerate_min := 1, framerate_max := 60 }]
    (by decide)
